import Mathlib

/-!
# OnScene EMS Whisper Service — request-pipeline verification

A shallow embedding of `src/whisper_service/app.py`: the auth gate
(`require_api_key`), the audit logger (`audit_log`), the transcriber wrapper
(`WhisperService.transcribe_audio`), and the two HTTP handlers (`transcribe`
and `transcribe_text_only`).

The acoustic model itself (`self.pipe(...)`) is opaque in the source; it is
modelled by a `TranscriberOutcome` parameter: either the recognized text with
its time-aligned chunks, or a raised fault carrying an error message.  The two
file-system operations that can fault inside the handler — `audio_file.save`
and the primary `os.unlink` — are likewise modelled by optional fault
parameters in a `World` record, so that every exit path of the Python handler
is a reachable branch of the Lean function.  Timestamps (`datetime.now()`)
are threaded as an abstract string `now`.
-/

namespace OnScene

/-- A time-aligned transcript segment, as produced by the speech pipeline
(`chunks` in the source).  The source carries float start/end times; the
timing values are never inspected by the pipeline, so they are modelled as
integers. -/
structure Chunk where
  startTime : Int
  endTime : Int
  text : String
deriving DecidableEq, Repr

/-- One uploaded multipart file part (`werkzeug FileStorage`): its client
filename and its byte content. -/
structure FilePart where
  filename : String
  content : List Nat
deriving DecidableEq, Repr

/-- The slice of the incoming Flask `request` object that the handlers read:
the `Authorization` header, the declared `Content-Length`, the multipart
`files` mapping and the `form` mapping. -/
structure Request where
  authorization : Option String
  contentLength : Option Nat
  files : List (String × FilePart)
  form : List (String × String)
deriving DecidableEq, Repr

/-- The environment-derived module configuration: `API_KEY`, `ENVIRONMENT`
and `MAX_FILE_SIZE` (already converted to bytes). -/
structure Config where
  apiKey : String
  environment : String
  maxFileSize : Nat
deriving DecidableEq, Repr

/-- `os.getenv(key, default)` over an environment modelled as an association
list. -/
def getenv (env : List (String × String)) (key dflt : String) : String :=
  (env.lookup key).getD dflt

/-- `API_KEY = os.getenv('WHISPER_API_KEY', 'dev-key-change-in-production')`
(source line 25). -/
def API_KEY (env : List (String × String)) : String :=
  getenv env "WHISPER_API_KEY" "dev-key-change-in-production"

/-- `ENVIRONMENT = os.getenv('ENVIRONMENT', 'development')`. -/
def ENVIRONMENT (env : List (String × String)) : String :=
  getenv env "ENVIRONMENT" "development"

/-- Python `int(s)` restricted to plain decimal digit strings, the only shape
a well-formed `MAX_FILE_SIZE_MB` takes; on anything else `int()` raises at
startup, modelled as `none`. -/
def parseDecimal (s : String) : Option Nat :=
  match s.data with
  | [] => none
  | cs => cs.foldl (fun acc? c =>
      acc?.bind fun acc =>
        if c.isDigit then some (10 * acc + (c.toNat - 48)) else none)
      (some 0)

/-- The module-level configuration assembled from the environment.
`MAX_FILE_SIZE = int(os.getenv('MAX_FILE_SIZE_MB', '25')) * 1024 * 1024`;
Python's `int()` raises at startup on a non-numeric value, hence the
`Option`. -/
def config_from_env (env : List (String × String)) : Option Config :=
  (parseDecimal (getenv env "MAX_FILE_SIZE_MB" "25")).map fun mb =>
    { apiKey := API_KEY env, environment := ENVIRONMENT env,
      maxFileSize := mb * 1024 * 1024 }

/-- Python `str.isspace`-style whitespace recognised by `str.split()` with no
argument: space, tab, newline, carriage return, vertical tab, form feed. -/
def isPySpace (c : Char) : Bool :=
  c = ' ' || c = '\t' || c = '\n' || c = '\r' || c = Char.ofNat 11 || c = Char.ofNat 12

/-- Helper for `pySplit`: scan the characters, accumulating the current word
(reversed) and emitting it at each whitespace run or at the end. -/
def pySplitAux : List Char → List Char → List String
  | [], acc => if acc.isEmpty then [] else [String.mk acc.reverse]
  | c :: cs, acc =>
    if isPySpace c then
      if acc.isEmpty then pySplitAux cs [] else String.mk acc.reverse :: pySplitAux cs []
    else
      pySplitAux cs (c :: acc)

/-- Python `s.split()` (no separator argument): split on runs of whitespace,
discarding empty pieces. -/
def pySplit (s : String) : List String :=
  pySplitAux s.data []

/-- Python `s.lower()`, restricted to the ASCII range (the strings compared
in the auth gate are ASCII). -/
def pyLower (s : String) : String :=
  String.mk (s.data.map Char.toLower)

/-- Result of the auth gate: pass through to the handler, or a denial
carrying the audit detail string and the JSON `error` body that the 401
response will carry. -/
inductive AuthResult where
  | authorized
  | denied (auditDetail : String) (errorBody : String)
deriving DecidableEq, Repr

/-- The `require_api_key` decorator (source lines 41–73), as a function of
the configuration and the request's `Authorization` header.
`if not auth_header:` is Python truthiness: it catches both an absent header
(`None`) and a present-but-empty one (`''`), denying either with
`'Missing authorization header'`.  Past that,
`scheme, token = auth_header.split()` raises `ValueError` unless the header
splits into exactly two whitespace-separated parts; the scheme comparison is
case-insensitive (`scheme.lower() != 'bearer'`); the token comparison is
exact string equality against the configured key. -/
def require_api_key (cfg : Config) (authorization : Option String) : AuthResult :=
  if cfg.environment = "development" then
    .authorized
  else
    match authorization with
    | none => .denied "Missing authorization header" "Authorization required"
    | some h =>
      if h = "" then
        .denied "Missing authorization header" "Authorization required"
      else
        match pySplit h with
        | [scheme, token] =>
          if pyLower scheme ≠ "bearer" || token ≠ cfg.apiKey then
            .denied "Invalid API key" "Invalid authorization"
          else
            .authorized
        | _ => .denied "Malformed authorization header" "Invalid authorization format"

/-- One audit event, reduced to the fields the claims inspect (event type and
detail; the timestamp and the per-request id are attached uniformly by
`audit_log` and carry no branching information). -/
structure Event where
  eventType : String
  detail : String
deriving DecidableEq, Repr

/-- A JSON response body.  Every body the service produces is an object with
a `success` flag and some subset of `text`, `chunks`, `error`, `timestamp`;
absent keys are `none`. -/
structure JsonBody where
  success : Bool
  text : Option String := none
  chunks : Option (List Chunk) := none
  error : Option String := none
  timestamp : Option String := none
deriving DecidableEq, Repr

/-- An HTTP response: status code plus JSON body. -/
structure Response where
  status : Nat
  body : JsonBody
deriving DecidableEq, Repr

/-- Outcome of the opaque speech pipeline call `self.pipe(audio_path, ...)`:
either a result dict with `text` and `chunks`, or a raised fault with a
message. -/
inductive TranscriberOutcome where
  | ok (text : String) (chunks : List Chunk)
  | fail (err : String)
deriving DecidableEq, Repr

/-- Fault injection for the two file-system operations the handler performs.
`saveRaises = some e`: `audio_file.save(temp_file.name)` raises with message
`e` after the named temporary file has been created (`delete=False`).
`unlinkRaises = some e`: the file is already gone when the success-path
`os.unlink(temp_path)` runs, which therefore raises `FileNotFoundError` with
message `e`. -/
structure World where
  transcriber : TranscriberOutcome
  saveRaises : Option String
  unlinkRaises : Option String
deriving DecidableEq, Repr

/-- `WhisperService.transcribe_audio` (source lines 120–151): invokes the
pipeline and wraps the outcome.  The `try/except` around the pipeline call
catches every fault and converts it into `{success: False, error, timestamp}`,
so this function is total: a transcriber fault never escapes as an
exception.  On success the dict is `{success: True, text, chunks, timestamp}`
with `chunks = result.get("chunks", []) if return_timestamps else []`.
`audio_path` and `language` feed only the opaque pipeline call, whose result
is already abstracted by `outcome`. -/
def transcribe_audio (outcome : TranscriberOutcome) (_audio_path _language : String)
    (return_timestamps : Bool) (now : String) : JsonBody :=
  match outcome with
  | .ok text chunks =>
    { success := true, text := some text,
      chunks := some (if return_timestamps then chunks else []),
      timestamp := some now }
  | .fail e =>
    { success := false, error := some e, timestamp := some now }

/-- The size guard
`request.content_length and request.content_length > MAX_FILE_SIZE`
(source line 175): `None` and `0` are falsy, so the guard fires exactly when
a declared nonzero length exceeds the configured maximum. -/
def size_exceeded (cfg : Config) (req : Request) : Bool :=
  match req.contentLength with
  | some n => decide (n ≠ 0) && decide (n > cfg.maxFileSize)
  | none => false

/-- The 413 body's error string
`f"File too large. Maximum size is {MAX_FILE_SIZE / (1024*1024)}MB"`.
The division is Python float division; the configured size is always a whole
number of megabytes, which CPython renders with a trailing `.0`. -/
def file_too_large_error (maxFileSize : Nat) : String :=
  "File too large. Maximum size is " ++ toString (maxFileSize / (1024 * 1024)) ++ ".0MB"

/-- Everything observable about one handler invocation: the HTTP response,
the audit events in emission order, whether a temporary file was ever
created, and whether it still exists when the response is returned. -/
structure Outcome where
  response : Response
  events : List Event
  tempWritten : Bool
  tempExistsAfter : Bool
deriving DecidableEq, Repr

/-- The body of the `/transcribe` handler (source lines 164–233), i.e. the
code that runs after `require_api_key` has passed.  Traced branch by branch:

* `audit_log('TRANSCRIPTION_STARTED', ...)` is the first statement.
* Oversized declared length: audit `TRANSCRIPTION_FAILED`, return 413; no
  file is written.
* `'audio' not in request.files`: return 400 `"No audio file provided"`.
* `audio_file.filename == ''`: return 400 `"No audio file selected"`.
* `with tempfile.NamedTemporaryFile(delete=False, ...)`: the file is created,
  then `audio_file.save` writes into it.  A fault raised by `save` happens
  *before* the inner `try` is entered, so no cleanup runs: the top-level
  `except` returns 500 and the file is left on disk.
* Inside the inner `try`, `transcribe_audio` is total.  If the primary
  `os.unlink(temp_path)` raises because the file is already gone, the inner
  `except` re-checks `os.path.exists` (false), skips the second unlink, and
  re-raises; the top-level `except` returns 500.
* Otherwise the file is deleted, the outcome audit event is emitted
  (`TRANSCRIPTION_SUCCESS` with the text length, or `TRANSCRIPTION_FAILED`
  with the error), and the result dict is returned with status 200. -/
def transcribe_handler (cfg : Config) (req : Request) (w : World) (now : String) : Outcome :=
  let started : Event := ⟨"TRANSCRIPTION_STARTED", "Audio transcription request received"⟩
  if size_exceeded cfg req then
    let body : JsonBody :=
      { success := false, error := some (file_too_large_error cfg.maxFileSize) }
    let failEvent : Event :=
      ⟨"TRANSCRIPTION_FAILED",
        "File too large: " ++ toString (req.contentLength.getD 0) ++ " bytes"⟩
    { response := ⟨413, body⟩, events := [started, failEvent],
      tempWritten := false, tempExistsAfter := false }
  else
    match req.files.lookup "audio" with
    | none =>
      { response := ⟨400, { success := false, error := some "No audio file provided" }⟩,
        events := [started], tempWritten := false, tempExistsAfter := false }
    | some audio_file =>
      if audio_file.filename = "" then
        { response := ⟨400, { success := false, error := some "No audio file selected" }⟩,
          events := [started], tempWritten := false, tempExistsAfter := false }
      else
        let language := (req.form.lookup "language").getD "english"
        let return_timestamps := pyLower ((req.form.lookup "timestamps").getD "true") = "true"
        match w.saveRaises with
        | some e =>
          { response := ⟨500, { success := false, error := some e, timestamp := some now }⟩,
            events := [started], tempWritten := true, tempExistsAfter := true }
        | none =>
          let result := transcribe_audio w.transcriber "temp_path" language return_timestamps now
          match w.unlinkRaises with
          | some e =>
            { response := ⟨500, { success := false, error := some e, timestamp := some now }⟩,
              events := [started], tempWritten := true, tempExistsAfter := false }
          | none =>
            let outcomeEvent : Event :=
              if result.success then
                ⟨"TRANSCRIPTION_SUCCESS",
                  "Transcription completed, text length: " ++
                    toString (result.text.getD "").length⟩
              else
                ⟨"TRANSCRIPTION_FAILED",
                  "Transcription failed: " ++ (result.error.getD "Unknown error")⟩
            { response := ⟨200, result⟩,
              events := [started, outcomeEvent],
              tempWritten := true, tempExistsAfter := false }

/-- The full `/transcribe` endpoint: `require_api_key` wrapping
`transcribe_handler`.  A denial emits the `AUTH_FAILED` audit event and
returns 401 `{success: false, error}` without running the handler. -/
def transcribe_endpoint (cfg : Config) (req : Request) (w : World) (now : String) : Outcome :=
  match require_api_key cfg req.authorization with
  | .denied detail body =>
    { response := ⟨401, { success := false, error := some body }⟩,
      events := [⟨"AUTH_FAILED", detail⟩],
      tempWritten := false, tempExistsAfter := false }
  | .authorized => transcribe_handler cfg req w now

/-- The `/transcribe-text` endpoint (source lines 235–258): call
`transcribe()` once; tuple results (every non-200 path attaches an explicit
status, making the return value a tuple) pass through unchanged; a 200
response with `success` true is projected to `{"text": ..., "success": True}`
(with `response_data.get("text", "")`); a 200 failure body passes through
unchanged.  The surrounding `try/except` is unreachable here because
`transcribe_endpoint` is total. -/
def transcribe_text_only (cfg : Config) (req : Request) (w : World) (now : String) : Outcome :=
  let full := transcribe_endpoint cfg req w now
  if full.response.status ≠ 200 then
    full
  else if full.response.body.success then
    { full with response :=
        ⟨200, { success := true, text := some (full.response.body.text.getD "") }⟩ }
  else
    full

/-- One audit record as built by `audit_log` (source lines 30–38):
timestamp, event type, detail, request id. -/
structure AuditEntry where
  timestamp : String
  eventType : String
  detail : String
  requestId : String
deriving DecidableEq, Repr

/-- `audit_log` (source lines 30–38): build the log entry dict and hand it to
the log sink (`logger.info`).  The function body contains no `try/except`,
so the embedding threads the sink's outcome through unchanged: if the sink
raises, `audit_log` raises the same error to its caller. -/
def audit_log (sink : AuditEntry → Except String Unit)
    (event_type detail now requestId : String) : Except String AuditEntry :=
  let entry : AuditEntry := ⟨now, event_type, detail, requestId⟩
  match sink entry with
  | .ok _ => .ok entry
  | .error e => .error e

/-! ## Claim C9 — the name of the secret's environment variable

The spec names the variable `API_KEY`; the source reads `WHISPER_API_KEY`
(with a development default) and merely binds the result to a Python variable
called `API_KEY`. -/

/-- C9 counterexample: in an environment binding both names, the secret used
by the service is the value of `WHISPER_API_KEY`, not the value of
`API_KEY`. -/
theorem api_key_not_from_API_KEY_var :
    API_KEY [("API_KEY", "alpha"), ("WHISPER_API_KEY", "beta")] = "beta" ∧
    List.lookup "API_KEY" [("API_KEY", "alpha"), ("WHISPER_API_KEY", "beta")] = some "alpha" ∧
    ("beta" : String) ≠ "alpha" :=
  ⟨rfl, rfl, by decide⟩

/-- C9 (amended): the shared secret the auth gate compares bearer tokens
against is sourced from the environment variable `WHISPER_API_KEY`; when that
variable is unset the secret falls back to the development default
`dev-key-change-in-production`. -/
theorem api_key_from_WHISPER_API_KEY_var (env : List (String × String)) (cfg : Config)
    (hcfg : config_from_env env = some cfg) :
    (∀ v, env.lookup "WHISPER_API_KEY" = some v → cfg.apiKey = v) ∧
    (env.lookup "WHISPER_API_KEY" = none → cfg.apiKey = "dev-key-change-in-production") := by
  unfold config_from_env at hcfg
  cases hmb : parseDecimal (getenv env "MAX_FILE_SIZE_MB" "25") with
  | none => rw [hmb] at hcfg; cases hcfg
  | some mb =>
    rw [hmb] at hcfg
    simp only [Option.map_some', Option.some.injEq] at hcfg
    subst hcfg
    constructor
    · intro v hv
      simp [API_KEY, getenv, hv]
    · intro hv
      simp [API_KEY, getenv, hv]

/-- Witness for C9 (amended) at a concrete environment. -/
theorem api_key_from_WHISPER_API_KEY_var_witness :
    (Config.apiKey ⟨"beta", "development", 25 * 1024 * 1024⟩) = "beta" :=
  (api_key_from_WHISPER_API_KEY_var [("WHISPER_API_KEY", "beta")]
      ⟨"beta", "development", 25 * 1024 * 1024⟩ (by decide)).1 "beta" rfl

/-! ## Claim C7 — audit faults and the caller -/

/-- C7 counterexample: a fault raised by the log sink is *not* swallowed by
`audit_log` — the function body has no handler, so the call returns the
sink's error to the caller. -/
theorem audit_log_sink_fault_escapes :
    audit_log (fun _ => .error "log sink unavailable")
      "TRANSCRIPTION_STARTED" "Audio transcription request received" "T" "r1" =
      .error "log sink unavailable" := rfl

/-- C7 (amended): `audit_log` adds no error handling of its own: it builds
the entry and invokes the log sink, and any error the sink raises propagates
unchanged to the caller (so a raising sink could change the pipeline's
outcome; in deployment it is the Python logging sink itself that suppresses
emission errors, not the audit layer). -/
theorem audit_log_propagates_sink_fault (sink : AuditEntry → Except String Unit)
    (event_type detail now requestId e : String)
    (h : sink ⟨now, event_type, detail, requestId⟩ = .error e) :
    audit_log sink event_type detail now requestId = .error e := by
  simp [audit_log, h]

/-- Witness for C7 (amended) at a concrete sink fault. -/
theorem audit_log_propagates_sink_fault_witness :
    audit_log (fun _ => .error "disk full") "AUTH_FAILED" "Invalid API key" "T" "r2" =
      .error "disk full" :=
  audit_log_propagates_sink_fault _ "AUTH_FAILED" "Invalid API key" "T" "r2" "disk full" rfl

/-! ## Claim C1 — the ephemeral file on the save-fault exit path

`audio_file.save(temp_file.name)` runs inside the `with` block that creates
the named temporary file (`delete=False`), *before* the inner `try` whose
handler performs the cleanup.  A fault raised by `save` therefore reaches the
top-level `except`, which returns 500 without deleting anything: the audio
file outlives the request, contradicting both the claim and the code's own
HIPAA cleanup comments. -/

/-- C1: at the failing input — an authorized request with a valid audio part
whose `save` call faults — the endpoint answers 500 and the ephemeral file
has been written but still exists after the response. -/
theorem save_fault_leaks_ephemeral_file :
    (let o := transcribe_endpoint ⟨"k", "development", 1000⟩
        ⟨none, some 10, [("audio", ⟨"clip.wav", [1, 2, 3]⟩)], []⟩
        ⟨.ok "hi" [], some "disk full", none⟩ "T"
     o.response.status = 500 ∧ o.tempWritten = true ∧ o.tempExistsAfter = true) := by
  decide

/-! ## Claim C2 — classification of authorization denials

The source's two-part branch treats a wrong scheme and a wrong token alike:
`if scheme.lower() != 'bearer' or token != API_KEY` emits the *invalid*
denial (`'Invalid API key'`).  Only a header that does not split into exactly
two whitespace-separated parts reaches the `ValueError` handler and the
*malformed* denial; a missing header has its own denial message. -/

/-- C2 counterexample: a header with exactly two parts and a non-`Bearer`
scheme is denied as *invalid* (`'Invalid API key'` / `"Invalid
authorization"`), not as *malformed* as the claim states. -/
theorem wrong_scheme_denied_invalid_not_malformed :
    require_api_key ⟨"sekret", "production", 100⟩ (some "Basic sekret") =
      .denied "Invalid API key" "Invalid authorization" ∧
    require_api_key ⟨"sekret", "production", 100⟩ (some "Basic sekret") ≠
      .denied "Malformed authorization header" "Invalid authorization format" := by
  decide

/-- C2 (amended): in non-development mode, a missing `Authorization` header
— or a present-but-empty one, both caught by the falsy check
`if not auth_header:` — is denied with its own detail
(`'Missing authorization header'`); a nonempty header that does not split
into exactly two whitespace-separated parts is denied as malformed; a header
with exactly two parts whose scheme is not `bearer` (case-insensitively)
*or* whose token differs from the configured secret by exact string
comparison is denied as invalid (`'Invalid API key'`).  Every denial
produces exactly one `AUTH_FAILED` audit event carrying its detail, and the
endpoint returns 401 `{success: false, error}` without running the
handler. -/
theorem auth_denials_classified (cfg : Config) (req : Request) (w : World) (now : String)
    (henv : cfg.environment ≠ "development") :
    (req.authorization = none ∨ req.authorization = some "" →
      require_api_key cfg req.authorization =
        .denied "Missing authorization header" "Authorization required") ∧
    (∀ s, req.authorization = some s → s ≠ "" → (pySplit s).length ≠ 2 →
      require_api_key cfg req.authorization =
        .denied "Malformed authorization header" "Invalid authorization format") ∧
    (∀ s scheme token, req.authorization = some s → pySplit s = [scheme, token] →
      (pyLower scheme ≠ "bearer" ∨ token ≠ cfg.apiKey) →
      require_api_key cfg req.authorization =
        .denied "Invalid API key" "Invalid authorization") ∧
    (∀ detail body, require_api_key cfg req.authorization = .denied detail body →
      (transcribe_endpoint cfg req w now).events = [⟨"AUTH_FAILED", detail⟩] ∧
      (transcribe_endpoint cfg req w now).response =
        ⟨401, { success := false, error := some body }⟩ ∧
      (transcribe_endpoint cfg req w now).tempWritten = false) := by
  refine ⟨?_, ?_, ?_, ?_⟩
  · intro h
    rcases h with h | h <;> simp [require_api_key, henv, h]
  · intro s hs hne hlen
    rw [hs]
    rcases h2 : pySplit s with _ | ⟨a, _ | ⟨b, _ | ⟨c, t⟩⟩⟩
    · simp [require_api_key, henv, hne, h2]
    · simp [require_api_key, henv, hne, h2]
    · exact absurd (by rw [h2]; rfl) hlen
    · simp [require_api_key, henv, hne, h2]
  · intro s scheme token hs hsp hbad
    rw [hs]
    have hne : s ≠ "" := by
      intro he
      rw [he] at hsp
      have h0 : pySplit "" = [] := rfl
      rw [h0] at hsp
      exact List.noConfusion hsp
    rcases hbad with h | h <;> simp [require_api_key, henv, hne, hsp, h]
  · intro detail body hden
    simp [transcribe_endpoint, hden]

/-- Witness for C2 (amended): a well-shaped `Bearer` header with the wrong
token is denied as invalid. -/
theorem auth_denials_classified_witness :
    require_api_key ⟨"sekret", "production", 100⟩ (some "Bearer wrong") =
      .denied "Invalid API key" "Invalid authorization" :=
  (auth_denials_classified ⟨"sekret", "production", 100⟩
      ⟨some "Bearer wrong", none, [], []⟩ ⟨.ok "" [], none, none⟩ "T"
      (by decide)).2.2.1 "Bearer wrong" "Bearer" "wrong" rfl (by decide) (Or.inr (by decide))

/-! ## Claim C3 — oversized declared content length -/

/-- C3: for every authorized request whose declared content length strictly
exceeds the configured maximum, the endpoint answers 413
`{success: false, error}`, a `TRANSCRIPTION_FAILED` audit event carrying the
declared length is emitted, and no ephemeral file is written. -/
theorem oversized_request_rejected (cfg : Config) (req : Request) (w : World) (now : String)
    (n : Nat)
    (hauth : require_api_key cfg req.authorization = .authorized)
    (hcl : req.contentLength = some n)
    (hn : cfg.maxFileSize < n) :
    (transcribe_endpoint cfg req w now).response =
      ⟨413, { success := false, error := some (file_too_large_error cfg.maxFileSize) }⟩ ∧
    ⟨"TRANSCRIPTION_FAILED", "File too large: " ++ toString n ++ " bytes"⟩ ∈
      (transcribe_endpoint cfg req w now).events ∧
    (transcribe_endpoint cfg req w now).tempWritten = false ∧
    (transcribe_endpoint cfg req w now).tempExistsAfter = false := by
  have hex : size_exceeded cfg req = true := by
    simp [size_exceeded, hcl]
    omega
  simp [transcribe_endpoint, hauth, transcribe_handler, hex, hcl]

/-- Witness for C3 at a concrete oversized request. -/
theorem oversized_request_rejected_witness :
    (transcribe_endpoint ⟨"k", "development", 100⟩ ⟨none, some 101, [], []⟩
        ⟨.ok "" [], none, none⟩ "T").response =
      ⟨413, { success := false, error := some (file_too_large_error 100) }⟩ :=
  (oversized_request_rejected ⟨"k", "development", 100⟩ ⟨none, some 101, [], []⟩
      ⟨.ok "" [], none, none⟩ "T" 101 (by decide) rfl (by decide)).1

/-! ## Claim C6 — a failing deletion is not silent on the success path

If the file is already gone when the success-path `os.unlink(temp_path)`
runs, the raised `FileNotFoundError` is caught by the inner handler, which
skips its own unlink (the `os.path.exists` check) but *re-raises*; the
top-level handler then returns 500.  The deletion failure is therefore
escalated and changes the HTTP response. -/

/-- C6 counterexample: with the same successful transcription, the request
whose primary deletion fails answers 500 where the undisturbed request
answers 200 — the deletion failure changes the HTTP response. -/
theorem unlink_fault_changes_response :
    (transcribe_endpoint ⟨"k", "development", 100⟩
        ⟨none, none, [("audio", ⟨"clip.wav", [1]⟩)], []⟩
        ⟨.ok "hi" [], none, some "No such file or directory"⟩ "T").response.status = 500 ∧
    (transcribe_endpoint ⟨"k", "development", 100⟩
        ⟨none, none, [("audio", ⟨"clip.wav", [1]⟩)], []⟩
        ⟨.ok "hi" [], none, none⟩ "T").response.status = 200 := by
  decide

/-- C6 (amended): a deletion failure is tolerated only on the error-cleanup
path (whose `os.path.exists` guard skips the already-gone file); on the
success path the failure of `os.unlink` is escalated — the endpoint returns
500 `{success: false, error, timestamp}` instead of the 200 result, with no
outcome audit event. -/
theorem unlink_fault_escalates_to_500 (cfg : Config) (req : Request) (w : World)
    (now e : String) (fp : FilePart)
    (hauth : require_api_key cfg req.authorization = .authorized)
    (hsize : size_exceeded cfg req = false)
    (hfp : req.files.lookup "audio" = some fp)
    (hname : fp.filename ≠ "")
    (hsave : w.saveRaises = none)
    (hunlink : w.unlinkRaises = some e) :
    (transcribe_endpoint cfg req w now).response =
      ⟨500, { success := false, error := some e, timestamp := some now }⟩ ∧
    (transcribe_endpoint cfg req w now).events =
      [⟨"TRANSCRIPTION_STARTED", "Audio transcription request received"⟩] ∧
    (transcribe_endpoint cfg req w now).tempExistsAfter = false := by
  simp [transcribe_endpoint, hauth, transcribe_handler, hsize, hfp, hname, hsave, hunlink]

/-- Witness for C6 (amended) at a concrete request. -/
theorem unlink_fault_escalates_to_500_witness :
    (transcribe_endpoint ⟨"k", "development", 100⟩
        ⟨none, none, [("audio", ⟨"clip.wav", [1]⟩)], []⟩
        ⟨.ok "hi" [], none, some "No such file or directory"⟩ "T").response =
      ⟨500, { success := false, error := some "No such file or directory",
              timestamp := some "T" }⟩ :=
  (unlink_fault_escalates_to_500 ⟨"k", "development", 100⟩
      ⟨none, none, [("audio", ⟨"clip.wav", [1]⟩)], []⟩
      ⟨.ok "hi" [], none, some "No such file or directory"⟩ "T"
      "No such file or directory" ⟨"clip.wav", [1]⟩
      (by decide) (by decide) rfl (by decide) rfl rfl).1

/-! ## Claim C8 — missing or empty audio part

The handler validates `'audio' in request.files` and
`audio_file.filename == ''`; it never inspects the part's byte content, so an
audio part with a nonempty filename and *empty content* proceeds to the
transcriber. -/

/-- C8 counterexample: an authorized request whose audio part has a nonempty
filename but empty byte content is not rejected with 400 — the file is
written and the pipeline runs. -/
theorem empty_content_audio_not_rejected :
    (let o := transcribe_endpoint ⟨"k", "development", 100⟩
        ⟨none, none, [("audio", ⟨"clip.wav", []⟩)], []⟩ ⟨.ok "" [], none, none⟩ "T"
     o.response.status = 200 ∧ o.response.status ≠ 400 ∧ o.tempWritten = true) := by
  decide

/-- C8 (amended): for every authorized, size-admissible request, a multipart
form with no `audio` part gets 400 with error exactly `"No audio file
provided"`, and an audio part whose *filename* is empty (the shape an
unselected file input produces) gets 400 `"No audio file selected"`; in both
cases no ephemeral file is written.  A part with a nonempty filename is
accepted even when its byte content is empty. -/
theorem missing_or_unnamed_audio_rejected (cfg : Config) (req : Request) (w : World)
    (now : String)
    (hauth : require_api_key cfg req.authorization = .authorized)
    (hsize : size_exceeded cfg req = false) :
    (req.files.lookup "audio" = none →
      (transcribe_endpoint cfg req w now).response =
        ⟨400, { success := false, error := some "No audio file provided" }⟩ ∧
      (transcribe_endpoint cfg req w now).tempWritten = false) ∧
    (∀ fp, req.files.lookup "audio" = some fp → fp.filename = "" →
      (transcribe_endpoint cfg req w now).response =
        ⟨400, { success := false, error := some "No audio file selected" }⟩ ∧
      (transcribe_endpoint cfg req w now).tempWritten = false) := by
  constructor
  · intro h
    simp [transcribe_endpoint, hauth, transcribe_handler, hsize, h]
  · intro fp hfp hname
    simp [transcribe_endpoint, hauth, transcribe_handler, hsize, hfp, hname]

/-- Witness for C8 (amended): a request with no audio part at all. -/
theorem missing_or_unnamed_audio_rejected_witness :
    (transcribe_endpoint ⟨"k", "development", 100⟩ ⟨none, none, [], []⟩
        ⟨.ok "" [], none, none⟩ "T").response =
      ⟨400, { success := false, error := some "No audio file provided" }⟩ :=
  ((missing_or_unnamed_audio_rejected ⟨"k", "development", 100⟩ ⟨none, none, [], []⟩
      ⟨.ok "" [], none, none⟩ "T" (by decide) (by decide)).1 rfl).1

/-! ## Claim C4 — a transcriber fault is a structured 200 outcome -/

/-- C4: a transcriber fault is caught at the call boundary —
`transcribe_audio` is a total function mapping the fault to
`{success: false, error, timestamp}` — and the endpoint then emits a
`TRANSCRIPTION_FAILED` audit event carrying the error detail and answers
HTTP 200 with that structured failure body. -/
theorem transcriber_failure_structured_200 (cfg : Config) (req : Request) (w : World)
    (now e : String) (fp : FilePart)
    (hauth : require_api_key cfg req.authorization = .authorized)
    (hsize : size_exceeded cfg req = false)
    (hfp : req.files.lookup "audio" = some fp)
    (hname : fp.filename ≠ "")
    (hsave : w.saveRaises = none)
    (hunlink : w.unlinkRaises = none)
    (htr : w.transcriber = .fail e) :
    (∀ path lang ts, transcribe_audio (.fail e) path lang ts now =
      { success := false, error := some e, timestamp := some now }) ∧
    (transcribe_endpoint cfg req w now).response =
      ⟨200, { success := false, error := some e, timestamp := some now }⟩ ∧
    ⟨"TRANSCRIPTION_FAILED", "Transcription failed: " ++ e⟩ ∈
      (transcribe_endpoint cfg req w now).events := by
  refine ⟨fun _ _ _ => rfl, ?_, ?_⟩ <;>
    simp [transcribe_endpoint, hauth, transcribe_handler, hsize, hfp, hname, hsave, hunlink,
      htr, transcribe_audio]

/-- Witness for C4 at a concrete faulting transcriber. -/
theorem transcriber_failure_structured_200_witness :
    (transcribe_endpoint ⟨"k", "development", 100⟩
        ⟨none, none, [("audio", ⟨"clip.wav", [1]⟩)], []⟩
        ⟨.fail "unreadable audio", none, none⟩ "T").response =
      ⟨200, { success := false, error := some "unreadable audio",
              timestamp := some "T" }⟩ :=
  (transcriber_failure_structured_200 ⟨"k", "development", 100⟩
      ⟨none, none, [("audio", ⟨"clip.wav", [1]⟩)], []⟩
      ⟨.fail "unreadable audio", none, none⟩ "T" "unreadable audio" ⟨"clip.wav", [1]⟩
      (by decide) (by decide) rfl (by decide) rfl rfl rfl).2.1

/-! ## Claim C5 — the text-only endpoint is a projection -/

/-- Auxiliary: whenever the full endpoint answers 200 with `success` true,
the body carries a `text` field (the only 200-success producer is the
transcriber's success dict). -/
theorem endpoint_success_text_isSome (cfg : Config) (req : Request) (w : World) (now : String)
    (h200 : (transcribe_endpoint cfg req w now).response.status = 200)
    (hsucc : (transcribe_endpoint cfg req w now).response.body.success = true) :
    ((transcribe_endpoint cfg req w now).response.body.text).isSome = true := by
  rcases hr : require_api_key cfg req.authorization with _ | ⟨d, b⟩
  · by_cases hex : size_exceeded cfg req = true
    · simp [transcribe_endpoint, hr, transcribe_handler, hex] at h200
    · rcases hfp : req.files.lookup "audio" with _ | fp
      · simp [transcribe_endpoint, hr, transcribe_handler, hex, hfp] at h200
      · by_cases hname : fp.filename = ""
        · simp [transcribe_endpoint, hr, transcribe_handler, hex, hfp, hname] at h200
        · rcases hsv : w.saveRaises with _ | e
          · rcases hul : w.unlinkRaises with _ | e2
            · rcases htr : w.transcriber with ⟨t, ch⟩ | er
              · simp [transcribe_endpoint, hr, transcribe_handler, hex, hfp, hname, hsv, hul,
                  htr, transcribe_audio]
              · simp [transcribe_endpoint, hr, transcribe_handler, hex, hfp, hname, hsv, hul,
                  htr, transcribe_audio] at hsucc
            · simp [transcribe_endpoint, hr, transcribe_handler, hex, hfp, hname, hsv,
                hul] at hsucc
          · simp [transcribe_endpoint, hr, transcribe_handler, hex, hfp, hname, hsv] at hsucc
  · simp [transcribe_endpoint, hr] at h200

/-- C5: `/transcribe-text` invokes the pipeline once and projects: when the
full response is a 200 success, the text-only response is 200
`{success: true, text}` with the same text; in every other case (non-200
status or 200 with `success` false) the text-only outcome is the full
outcome unchanged. -/
theorem text_only_is_strict_projection (cfg : Config) (req : Request) (w : World)
    (now : String) :
    ((transcribe_endpoint cfg req w now).response.status = 200 →
      (transcribe_endpoint cfg req w now).response.body.success = true →
      (transcribe_text_only cfg req w now).response.status = 200 ∧
      (transcribe_text_only cfg req w now).response.body.success = true ∧
      (transcribe_text_only cfg req w now).response.body.text =
        (transcribe_endpoint cfg req w now).response.body.text ∧
      (transcribe_text_only cfg req w now).response.body =
        { success := true,
          text := some (((transcribe_endpoint cfg req w now).response.body.text).getD "") }) ∧
    ((transcribe_endpoint cfg req w now).response.status ≠ 200 ∨
        (transcribe_endpoint cfg req w now).response.body.success = false →
      transcribe_text_only cfg req w now = transcribe_endpoint cfg req w now) := by
  constructor
  · intro h200 hsucc
    obtain ⟨t, ht⟩ :=
      Option.isSome_iff_exists.mp (endpoint_success_text_isSome cfg req w now h200 hsucc)
    simp [transcribe_text_only, h200, hsucc, ht]
  · intro h
    by_cases hst : (transcribe_endpoint cfg req w now).response.status = 200
    · rcases h with h | h
      · exact absurd hst h
      · simp [transcribe_text_only, hst, h]
    · simp [transcribe_text_only, hst]

/-- Witness for C5 at a concrete successful transcription. -/
theorem text_only_is_strict_projection_witness :
    (transcribe_text_only ⟨"k", "development", 100⟩
        ⟨none, none, [("audio", ⟨"clip.wav", [1]⟩)], []⟩
        ⟨.ok "hello" [], none, none⟩ "T").response.body =
      { success := true, text := some "hello" } := by
  have h := (text_only_is_strict_projection ⟨"k", "development", 100⟩
      ⟨none, none, [("audio", ⟨"clip.wav", [1]⟩)], []⟩
      ⟨.ok "hello" [], none, none⟩ "T").1 (by decide) (by decide)
  exact h.2.2.2.trans (by decide)

/-! ## Claim C10 — `TRANSCRIPTION_STARTED` is emitted first -/

/-- Auxiliary: in a list whose head is the started event, any
`TRANSCRIPTION_SUCCESS` or `TRANSCRIPTION_FAILED` event sits at a strictly
positive index. -/
theorem started_head_pos (l : List Event)
    (hhead : l.head? = some ⟨"TRANSCRIPTION_STARTED", "Audio transcription request received"⟩)
    (i : Nat) (hi : i < l.length)
    (hty : (l.get ⟨i, hi⟩).eventType = "TRANSCRIPTION_SUCCESS" ∨
           (l.get ⟨i, hi⟩).eventType = "TRANSCRIPTION_FAILED") :
    0 < i := by
  cases l with
  | nil => exact absurd hi (by simp)
  | cons a tl =>
    cases i with
    | zero =>
      exfalso
      simp only [List.head?_cons, Option.some.injEq] at hhead
      subst hhead
      have h0 : ((⟨"TRANSCRIPTION_STARTED", "Audio transcription request received"⟩ : Event)
            :: tl).get ⟨0, hi⟩ =
          (⟨"TRANSCRIPTION_STARTED", "Audio transcription request received"⟩ : Event) := rfl
      rw [h0] at hty
      rcases hty with h | h <;> exact absurd h (by decide)
    | succ n => exact Nat.succ_pos n

/-- C10: for every request that passes the auth gate, the first audit event
of the request is `TRANSCRIPTION_STARTED` (so requests later rejected with
413 or 400 still record it), and any `TRANSCRIPTION_SUCCESS` or
`TRANSCRIPTION_FAILED` event of the same request occurs strictly after it. -/
theorem started_event_precedes_outcomes (cfg : Config) (req : Request) (w : World)
    (now : String)
    (hauth : require_api_key cfg req.authorization = .authorized) :
    (transcribe_endpoint cfg req w now).events.head? =
      some ⟨"TRANSCRIPTION_STARTED", "Audio transcription request received"⟩ ∧
    ((transcribe_endpoint cfg req w now).response.status = 413 ∨
        (transcribe_endpoint cfg req w now).response.status = 400 →
      (⟨"TRANSCRIPTION_STARTED", "Audio transcription request received"⟩ : Event) ∈
        (transcribe_endpoint cfg req w now).events) ∧
    (∀ i (hi : i < (transcribe_endpoint cfg req w now).events.length),
      (((transcribe_endpoint cfg req w now).events.get ⟨i, hi⟩).eventType =
          "TRANSCRIPTION_SUCCESS" ∨
       ((transcribe_endpoint cfg req w now).events.get ⟨i, hi⟩).eventType =
          "TRANSCRIPTION_FAILED") →
      0 < i) := by
  have hhead : (transcribe_endpoint cfg req w now).events.head? =
      some ⟨"TRANSCRIPTION_STARTED", "Audio transcription request received"⟩ := by
    by_cases hex : size_exceeded cfg req = true
    · simp [transcribe_endpoint, hauth, transcribe_handler, hex]
    · rcases hfp : req.files.lookup "audio" with _ | fp
      · simp [transcribe_endpoint, hauth, transcribe_handler, hex, hfp]
      · by_cases hname : fp.filename = ""
        · simp [transcribe_endpoint, hauth, transcribe_handler, hex, hfp, hname]
        · rcases hsv : w.saveRaises with _ | e
          · rcases hul : w.unlinkRaises with _ | e2
            · simp [transcribe_endpoint, hauth, transcribe_handler, hex, hfp, hname, hsv, hul]
            · simp [transcribe_endpoint, hauth, transcribe_handler, hex, hfp, hname, hsv, hul]
          · simp [transcribe_endpoint, hauth, transcribe_handler, hex, hfp, hname, hsv]
  refine ⟨hhead, ?_, ?_⟩
  · intro _
    rcases hl : (transcribe_endpoint cfg req w now).events with _ | ⟨a, tl⟩
    · rw [hl] at hhead
      simp at hhead
    · rw [hl] at hhead
      simp only [List.head?_cons, Option.some.injEq] at hhead
      rw [hhead]
      exact List.mem_cons_self _ _
  · intro i hi hty
    exact started_head_pos _ hhead i hi hty

/-- Witness for C10: an authorized request rejected with 400 still has the
started event first. -/
theorem started_event_precedes_outcomes_witness :
    (transcribe_endpoint ⟨"k", "development", 100⟩ ⟨none, none, [], []⟩
        ⟨.ok "" [], none, none⟩ "T").events.head? =
      some ⟨"TRANSCRIPTION_STARTED", "Audio transcription request received"⟩ :=
  (started_event_precedes_outcomes ⟨"k", "development", 100⟩ ⟨none, none, [], []⟩
      ⟨.ok "" [], none, none⟩ "T" (by decide)).1

end OnScene
